import Mathlib

/-!
Verification of the RemotePromptServer job execution core.

This file shallowly embeds the parts of the repository needed to settle
the frozen claims:

* `src/utils/cli_builder.py` — the Command Builder (`build_claude_command`,
  `build_codex_command`, `build_gemini_command`).
* `src/utils/settings_validator.py` — `validate_custom_flags` and the
  constant tables it consults.
* `src/main.py` — the `create_job` HTTP endpoint, `ensure_room_owned` and
  `_get_or_create_default_thread`, and the `/events` global SSE stream loop.
* The Session Store upsert (the `session_manager` module is not part of the
  sources at hand; it is modelled from the specification, see the doc
  comment on `session_upsert`).

Python dicts are embedded as association lists (`List (String × _)`), with
`List.lookup` playing the role of `key in d` / `d[key]`.  Settings values
are embedded by the inductive `SVal`, covering exactly the value shapes the
upstream validator (`validate_settings`) can produce: strings, lists of
strings, and booleans.  Machine-level concerns (JSON wire encoding, SQLite
storage) are abstracted to the already-parsed data they carry.
-/

namespace RemotePrompt

/-- A settings value as produced by `settings_validator.validate_settings`:
a string (model names, modes), a list of strings (tool lists, custom flags)
or a boolean (gemini `sandbox` / `yolo`). -/
inductive SVal where
  | str (s : String)
  | list (l : List String)
  | bool (b : Bool)
deriving DecidableEq, Repr

/-- Reading a settings value as a string (`cfg["model"]` used in string
position).  Validated settings only ever put `SVal.str` here. -/
def SVal.asStr : SVal → String
  | .str s => s
  | .list _ => ""
  | .bool _ => ""

/-- Reading a settings value as a list of strings (`cfg["tools"]` used as a
list).  Validated settings only ever put `SVal.list` here. -/
def SVal.asList : SVal → List String
  | .str _ => []
  | .list l => l
  | .bool _ => []

/-- Python truthiness of a settings value, as used by the guards
`if "allowed_tools" in cfg and cfg["allowed_tools"]:` and the gemini
boolean flags. -/
def SVal.truthy : SVal → Bool
  | .str s => !s.isEmpty
  | .list l => !l.isEmpty
  | .bool b => b

/-- A per-runner settings section: a Python dict of validated keys. -/
abbrev SectD := List (String × SVal)

/-- The whole settings object: a Python dict mapping runner names to
sections. -/
abbrev SettingsD := List (String × SectD)

/-- The guard `if settings and runner in settings:` shared by all three
builders: `None` and the empty dict are falsy, otherwise the runner's
section is looked up. -/
def sectionOf (settings : Option SettingsD) (runner : String) : Option SectD :=
  match settings with
  | none => none
  | some s => if s.isEmpty then none else s.lookup runner

/-- Embedding of `cli_builder.build_claude_command`: base invocation
`claude --print --output-format text`, then one conditional segment per
handled key, in source order, then `custom_flags` verbatim. -/
def build_claude_command (settings : Option SettingsD) : List String :=
  ["claude", "--print", "--output-format", "text"] ++
    match sectionOf settings "claude" with
    | none => []
    | some cfg =>
      (match cfg.lookup "model" with
        | some v => ["--model", v.asStr]
        | none => []) ++
      (match cfg.lookup "permission_mode" with
        | some v => ["--permission-mode", v.asStr]
        | none => []) ++
      (match cfg.lookup "tools" with
        | some v => ["--tools", String.intercalate "," v.asList]
        | none => []) ++
      (match cfg.lookup "allowed_tools" with
        | some v =>
          if v.truthy then ["--allowedTools", String.intercalate "," v.asList] else []
        | none => []) ++
      (match cfg.lookup "disallowed_tools" with
        | some v =>
          if v.truthy then ["--disallowedTools", String.intercalate "," v.asList] else []
        | none => []) ++
      (match cfg.lookup "custom_flags" with
        | some v => v.asList
        | none => [])

/-- Embedding of `cli_builder.build_codex_command`: base invocation
`codex exec`, then model, sandbox, reasoning effort (with the source's
`extra-high` → `xhigh` compatibility rewrite) and `custom_flags`. -/
def build_codex_command (settings : Option SettingsD) : List String :=
  ["codex", "exec"] ++
    match sectionOf settings "codex" with
    | none => []
    | some cfg =>
      (match cfg.lookup "model" with
        | some v => ["-m", v.asStr]
        | none => []) ++
      (match cfg.lookup "sandbox" with
        | some v => ["-s", v.asStr]
        | none => []) ++
      (match cfg.lookup "reasoning_effort" with
        | some v =>
          let e := v.asStr
          let e := if e = "extra-high" then "xhigh" else e
          ["-c", "model_reasoning_effort=" ++ e]
        | none => []) ++
      (match cfg.lookup "custom_flags" with
        | some v => v.asList
        | none => [])

/-- Embedding of `cli_builder.build_gemini_command`: base invocation
`gemini -o text`, then model, the boolean `sandbox` / `yolo` switches,
`approval_mode` and `custom_flags`. -/
def build_gemini_command (settings : Option SettingsD) : List String :=
  ["gemini", "-o", "text"] ++
    match sectionOf settings "gemini" with
    | none => []
    | some cfg =>
      (match cfg.lookup "model" with
        | some v => ["-m", v.asStr]
        | none => []) ++
      (match cfg.lookup "sandbox" with
        | some v => if v.truthy then ["-s"] else []
        | none => []) ++
      (match cfg.lookup "yolo" with
        | some v => if v.truthy then ["-y"] else []
        | none => []) ++
      (match cfg.lookup "approval_mode" with
        | some v => ["--approval-mode", v.asStr]
        | none => []) ++
      (match cfg.lookup "custom_flags" with
        | some v => v.asList
        | none => [])

/-- Mapping claimed by the spec for the claude builder, amended by the
observed behavior at the counterexample: every whitelisted key that is
present is mapped to its flag together with its value, no flag is emitted
for an absent key, and the allow/deny tool lists emit their flag only when
the stored list is non-empty. -/
def spec_claude_mapping (cfg : SectD) : List String :=
  (match cfg.lookup "model" with
    | some v => ["--model", v.asStr]
    | none => []) ++
  (match cfg.lookup "permission_mode" with
    | some v => ["--permission-mode", v.asStr]
    | none => []) ++
  (match cfg.lookup "tools" with
    | some v => ["--tools", String.intercalate "," v.asList]
    | none => []) ++
  (match cfg.lookup "allowed_tools" with
    | some v =>
      if v.truthy then ["--allowedTools", String.intercalate "," v.asList] else []
    | none => []) ++
  (match cfg.lookup "disallowed_tools" with
    | some v =>
      if v.truthy then ["--disallowedTools", String.intercalate "," v.asList] else []
    | none => []) ++
  (match cfg.lookup "custom_flags" with
    | some v => v.asList
    | none => [])

/-- Mapping claimed by the spec for the codex builder, amended by the
observed behavior at the counterexample: the emitted reasoning-effort
value equals the stored value for `low` / `medium` / `high`, while the
allowed value `extra-high` is emitted as `xhigh`. -/
def spec_codex_mapping (cfg : SectD) : List String :=
  (match cfg.lookup "model" with
    | some v => ["-m", v.asStr]
    | none => []) ++
  (match cfg.lookup "sandbox" with
    | some v => ["-s", v.asStr]
    | none => []) ++
  (match cfg.lookup "reasoning_effort" with
    | some v =>
      ["-c", "model_reasoning_effort=" ++
        (if v.asStr = "extra-high" then "xhigh" else v.asStr)]
    | none => []) ++
  (match cfg.lookup "custom_flags" with
    | some v => v.asList
    | none => [])

/-- Mapping claimed by the spec for the gemini builder, amended by the
observed behavior at the counterexample: the boolean `sandbox` / `yolo`
keys emit their bare switch exactly when the stored value is true,
carrying no value. -/
def spec_gemini_mapping (cfg : SectD) : List String :=
  (match cfg.lookup "model" with
    | some v => ["-m", v.asStr]
    | none => []) ++
  (match cfg.lookup "sandbox" with
    | some v => if v.truthy then ["-s"] else []
    | none => []) ++
  (match cfg.lookup "yolo" with
    | some v => if v.truthy then ["-y"] else []
    | none => []) ++
  (match cfg.lookup "approval_mode" with
    | some v => ["--approval-mode", v.asStr]
    | none => []) ++
  (match cfg.lookup "custom_flags" with
    | some v => v.asList
    | none => [])

/-- The per-runner lookup a builder performs: the runner's section (with
the truthiness guard) followed by a key lookup inside it. -/
def cfgLookup (settings : Option SettingsD) (runner key : String) : Option SVal :=
  (sectionOf settings runner).bind (fun cfg => cfg.lookup key)

/-- The claude builder's tail as a function of the six handled lookups. -/
def claudeArgsOf (m p t a d c : Option SVal) : List String :=
  (match m with | some v => ["--model", v.asStr] | none => []) ++
  (match p with | some v => ["--permission-mode", v.asStr] | none => []) ++
  (match t with | some v => ["--tools", String.intercalate "," v.asList] | none => []) ++
  (match a with
    | some v => if v.truthy then ["--allowedTools", String.intercalate "," v.asList] else []
    | none => []) ++
  (match d with
    | some v => if v.truthy then ["--disallowedTools", String.intercalate "," v.asList] else []
    | none => []) ++
  (match c with | some v => v.asList | none => [])

/-- The codex builder's tail as a function of the four handled lookups. -/
def codexArgsOf (m s r c : Option SVal) : List String :=
  (match m with | some v => ["-m", v.asStr] | none => []) ++
  (match s with | some v => ["-s", v.asStr] | none => []) ++
  (match r with
    | some v =>
      ["-c", "model_reasoning_effort=" ++
        (if v.asStr = "extra-high" then "xhigh" else v.asStr)]
    | none => []) ++
  (match c with | some v => v.asList | none => [])

/-- The gemini builder's tail as a function of the five handled lookups. -/
def geminiArgsOf (m sb y a c : Option SVal) : List String :=
  (match m with | some v => ["-m", v.asStr] | none => []) ++
  (match sb with | some v => if v.truthy then ["-s"] else [] | none => []) ++
  (match y with | some v => if v.truthy then ["-y"] else [] | none => []) ++
  (match a with | some v => ["--approval-mode", v.asStr] | none => []) ++
  (match c with | some v => v.asList | none => [])

/-! Embedding of `settings_validator.validate_custom_flags`.  Python
strings are embedded as `List Char` so that substring, per-character and
splitting operations are directly expressible. -/

/-- A Python string, embedded as its character list. -/
abbrev PyStr := List Char

/-- `settings_validator.RESERVED_FLAGS` together with the `.get(ai_type, [])`
access used by `validate_custom_flags`. -/
def RESERVED_FLAGS (ai_type : String) : List PyStr :=
  if ai_type = "claude" then
    ["--model".toList, "--permission-mode".toList, "--tools".toList]
  else if ai_type = "codex" then
    ["-m".toList, "--model".toList, "-s".toList, "--sandbox".toList,
     "-a".toList, "--ask-for-approval".toList, "-r".toList, "--reasoning-effort".toList]
  else if ai_type = "gemini" then
    ["-m".toList, "--model".toList, "-s".toList, "--sandbox".toList,
     "-y".toList, "--yolo".toList, "--approval-mode".toList]
  else []

/-- `settings_validator.DANGEROUS_FLAGS`. -/
def DANGEROUS_FLAGS : List PyStr :=
  ["--exec".toList, "--eval".toList, "--unsafe".toList, "--allow-root".toList,
   "--disable-sandbox".toList, "--no-verify".toList, "--rm".toList, "--delete".toList]

/-- `settings_validator.SHELL_META_CHARS`; `Char.ofNat 96` is the backquote. -/
def SHELL_META_CHARS : List Char :=
  [';', '|', '&', '$', Char.ofNat 96, '(', ')', '<', '>', '\n', '\r']

/-- Python's `str.isspace` whitespace set, the separator set of the
argument-less `str.split()`: the Unicode code points 0x9-0xd, 0x1c-0x1f,
space, NEL, NBSP, and the Unicode space separators. -/
def pythonWhitespace (c : Char) : Bool :=
  decide (c.toNat ∈ [0x9, 0xa, 0xb, 0xc, 0xd, 0x1c, 0x1d, 0x1e, 0x1f, 0x20,
    0x85, 0xa0, 0x1680, 0x2000, 0x2001, 0x2002, 0x2003, 0x2004, 0x2005,
    0x2006, 0x2007, 0x2008, 0x2009, 0x200a, 0x2028, 0x2029, 0x202f,
    0x205f, 0x3000])

/-- The flag-name extraction `flag.split("=")[0].split()[0]` done by
`_validate_flag_name`: the part before the first `=`, then its first
token under Python's whitespace set. -/
def flag_name (flag : PyStr) : PyStr :=
  ((flag.takeWhile (· ≠ '=')).dropWhile pythonWhitespace).takeWhile
    (fun c => !(pythonWhitespace c))

/-- Embedding of `validate_custom_flags(flags, ai_type)`: `true` means the
Python function returns without raising `ValidationError`, `false` that it
raises.  The five per-flag checks are in source order: leading dash,
length, reserved name, dangerous substring of the lower-cased flag, shell
metacharacter. -/
def validate_custom_flags (flags : List PyStr) (ai_type : String) : Bool :=
  if flags.length > 10 then false
  else flags.all (fun flag =>
    decide (flag.head? = some '-') &&
    decide (flag.length ≤ 100) &&
    decide (flag_name flag ∉ RESERVED_FLAGS ai_type) &&
    decide (∀ d ∈ DANGEROUS_FLAGS, ¬ d <:+: flag.map Char.toLower) &&
    decide (∀ c ∈ SHELL_META_CHARS, c ∉ flag))

end RemotePrompt

namespace RemotePrompt

theorem map_infix_mono {α β : Type} (g : α → β) {l₁ l₂ : List α}
    (h : l₁ <:+: l₂) : l₁.map g <:+: l₂.map g := by
  obtain ⟨s, t, rfl⟩ := h
  exact ⟨s.map g, t.map g, by simp⟩

theorem dangerous_flags_lowercase :
    ∀ d ∈ DANGEROUS_FLAGS, d.map Char.toLower = d := by
  decide

theorem reserved_name_hidden_by_vt_rejected :
    flag_name ['-', 'a', Char.ofNat 0xb, 'f', 'o', 'o'] = ['-', 'a'] ∧
    validate_custom_flags [['-', 'a', Char.ofNat 0xb, 'f', 'o', 'o']] "codex" = false := by
  constructor <;> decide

theorem sectionOf_single (r : String) (cfg : SectD) :
    sectionOf (some [(r, cfg)]) r = some cfg := by
  simp [sectionOf, List.lookup]

theorem build_claude_eq (s : Option SettingsD) :
    build_claude_command s =
      ["claude", "--print", "--output-format", "text"] ++
        claudeArgsOf (cfgLookup s "claude" "model") (cfgLookup s "claude" "permission_mode")
          (cfgLookup s "claude" "tools") (cfgLookup s "claude" "allowed_tools")
          (cfgLookup s "claude" "disallowed_tools") (cfgLookup s "claude" "custom_flags") := by
  cases hs : sectionOf s "claude" with
  | none => simp [build_claude_command, hs, cfgLookup, claudeArgsOf]
  | some cfg => simp [build_claude_command, hs, cfgLookup, claudeArgsOf]

theorem build_codex_eq (s : Option SettingsD) :
    build_codex_command s =
      ["codex", "exec"] ++
        codexArgsOf (cfgLookup s "codex" "model") (cfgLookup s "codex" "sandbox")
          (cfgLookup s "codex" "reasoning_effort") (cfgLookup s "codex" "custom_flags") := by
  cases hs : sectionOf s "codex" with
  | none => simp [build_codex_command, hs, cfgLookup, codexArgsOf]
  | some cfg => simp [build_codex_command, hs, cfgLookup, codexArgsOf]

theorem build_gemini_eq (s : Option SettingsD) :
    build_gemini_command s =
      ["gemini", "-o", "text"] ++
        geminiArgsOf (cfgLookup s "gemini" "model") (cfgLookup s "gemini" "sandbox")
          (cfgLookup s "gemini" "yolo") (cfgLookup s "gemini" "approval_mode")
          (cfgLookup s "gemini" "custom_flags") := by
  cases hs : sectionOf s "gemini" with
  | none => simp [build_gemini_command, hs, cfgLookup, geminiArgsOf]
  | some cfg => simp [build_gemini_command, hs, cfgLookup, geminiArgsOf]

/-- C5: building the command for runner `claude` with `settings = None`
yields exactly the bare non-interactive invocation
`claude --print --output-format text`, with no extra flags. -/
theorem claude_none_is_bare_invocation :
    build_claude_command none = ["claude", "--print", "--output-format", "text"] := by
  rfl

/-- C6: with `settings = {"claude": {"model": "opus", "tools": ["Bash", "Read"]}}`
the built argv is exactly the base invocation followed by `--model opus`
and `--tools Bash,Read`; in particular the model flag is immediately
followed by `opus` and the tools flag by the comma-joined `Bash,Read`. -/
theorem claude_model_tools_argv :
    build_claude_command
        (some [("claude", [("model", SVal.str "opus"),
                           ("tools", SVal.list ["Bash", "Read"])])]) =
      ["claude", "--print", "--output-format", "text",
       "--model", "opus", "--tools", "Bash,Read"] ∧
    ["--model", "opus"] <:+:
      build_claude_command
        (some [("claude", [("model", SVal.str "opus"),
                           ("tools", SVal.list ["Bash", "Read"])])]) ∧
    ["--tools", "Bash,Read"] <:+:
      build_claude_command
        (some [("claude", [("model", SVal.str "opus"),
                           ("tools", SVal.list ["Bash", "Read"])])]) := by
  refine ⟨by rfl, ?_, ?_⟩
  · exact ⟨["claude", "--print", "--output-format", "text"], ["--tools", "Bash,Read"], by rfl⟩
  · exact ⟨["claude", "--print", "--output-format", "text", "--model", "opus"], [], by rfl⟩

/-- C3 counterexample: with validated settings
`{"claude": {"allowed_tools": []}, "codex": {"reasoning_effort": "extra-high"},
"gemini": {"sandbox": false}}` the builders do not map every present
whitelisted key to its flag with the stored value: codex emits
`model_reasoning_effort=xhigh` rather than the stored allowed value
`extra-high`, claude emits no `--allowedTools` flag although the key is
present, and gemini emits no `-s` although `sandbox` is present. -/
theorem builder_mapping_counterexample :
    build_codex_command
        (some [("claude", [("allowed_tools", SVal.list [])]),
               ("codex", [("reasoning_effort", SVal.str "extra-high")]),
               ("gemini", [("sandbox", SVal.bool false)])]) =
      ["codex", "exec", "-c", "model_reasoning_effort=xhigh"] ∧
    "model_reasoning_effort=extra-high" ∉
      build_codex_command
        (some [("claude", [("allowed_tools", SVal.list [])]),
               ("codex", [("reasoning_effort", SVal.str "extra-high")]),
               ("gemini", [("sandbox", SVal.bool false)])]) ∧
    build_claude_command
        (some [("claude", [("allowed_tools", SVal.list [])]),
               ("codex", [("reasoning_effort", SVal.str "extra-high")]),
               ("gemini", [("sandbox", SVal.bool false)])]) =
      ["claude", "--print", "--output-format", "text"] ∧
    build_gemini_command
        (some [("claude", [("allowed_tools", SVal.list [])]),
               ("codex", [("reasoning_effort", SVal.str "extra-high")]),
               ("gemini", [("sandbox", SVal.bool false)])]) =
      ["gemini", "-o", "text"] := by
  refine ⟨by rfl, by decide, by rfl, by rfl⟩

/-- C3 (amended): each builder emits exactly its base invocation followed,
key by key in source order, by the flag/value mapping of the present
whitelisted keys — no flag for an absent key — where the allow/deny tool
lists and the gemini boolean switches emit a flag only for a truthy value,
the gemini boolean switches carry no value, and codex emits the stored
reasoning-effort value except that `extra-high` is emitted as `xhigh`. -/
theorem builder_maps_whitelisted_keys (cfgClaude cfgCodex cfgGemini : SectD) :
    build_claude_command (some [("claude", cfgClaude)]) =
      ["claude", "--print", "--output-format", "text"] ++ spec_claude_mapping cfgClaude ∧
    build_codex_command (some [("codex", cfgCodex)]) =
      ["codex", "exec"] ++ spec_codex_mapping cfgCodex ∧
    build_gemini_command (some [("gemini", cfgGemini)]) =
      ["gemini", "-o", "text"] ++ spec_gemini_mapping cfgGemini := by
  refine ⟨?_, ?_, ?_⟩ <;>
    simp [build_claude_command, build_codex_command, build_gemini_command,
      sectionOf, spec_claude_mapping, spec_codex_mapping, spec_gemini_mapping,
      List.lookup]

/-- C4: whenever a runner's section stores a `custom_flags` list, the
corresponding build function appends exactly its elements, in order, as
individual trailing argv elements (the flag list is a suffix of argv as a
list of discrete strings, never joined into a single string). -/
theorem custom_flags_trailing (cfgClaude cfgCodex cfgGemini : SectD)
    (fl1 fl2 fl3 : List String)
    (h1 : cfgClaude.lookup "custom_flags" = some (SVal.list fl1))
    (h2 : cfgCodex.lookup "custom_flags" = some (SVal.list fl2))
    (h3 : cfgGemini.lookup "custom_flags" = some (SVal.list fl3)) :
    fl1 <:+ build_claude_command (some [("claude", cfgClaude)]) ∧
    fl2 <:+ build_codex_command (some [("codex", cfgCodex)]) ∧
    fl3 <:+ build_gemini_command (some [("gemini", cfgGemini)]) := by
  refine ⟨?_, ?_, ?_⟩
  · rw [build_claude_eq]
    simp only [cfgLookup, sectionOf_single, Option.some_bind, h1]
    exact ⟨["claude", "--print", "--output-format", "text"] ++
      claudeArgsOf (cfgClaude.lookup "model") (cfgClaude.lookup "permission_mode")
        (cfgClaude.lookup "tools") (cfgClaude.lookup "allowed_tools")
        (cfgClaude.lookup "disallowed_tools") none,
      by simp [claudeArgsOf, SVal.asList, List.append_assoc]⟩
  · rw [build_codex_eq]
    simp only [cfgLookup, sectionOf_single, Option.some_bind, h2]
    exact ⟨["codex", "exec"] ++
      codexArgsOf (cfgCodex.lookup "model") (cfgCodex.lookup "sandbox")
        (cfgCodex.lookup "reasoning_effort") none,
      by simp [codexArgsOf, SVal.asList, List.append_assoc]⟩
  · rw [build_gemini_eq]
    simp only [cfgLookup, sectionOf_single, Option.some_bind, h3]
    exact ⟨["gemini", "-o", "text"] ++
      geminiArgsOf (cfgGemini.lookup "model") (cfgGemini.lookup "sandbox")
        (cfgGemini.lookup "yolo") (cfgGemini.lookup "approval_mode") none,
      by simp [geminiArgsOf, SVal.asList, List.append_assoc]⟩

/-- C4 witness: a concrete section with two custom flags; they form the
trailing elements of each built command. -/
theorem custom_flags_trailing_witness :
    ["--verbose", "--foo=bar"] <:+
      build_claude_command (some [("claude",
        [("model", SVal.str "opus"),
         ("custom_flags", SVal.list ["--verbose", "--foo=bar"])])]) ∧
    ["--verbose", "--foo=bar"] <:+
      build_codex_command (some [("codex",
        [("custom_flags", SVal.list ["--verbose", "--foo=bar"])])]) ∧
    ["--verbose", "--foo=bar"] <:+
      build_gemini_command (some [("gemini",
        [("custom_flags", SVal.list ["--verbose", "--foo=bar"])])]) :=
  custom_flags_trailing
    [("model", SVal.str "opus"), ("custom_flags", SVal.list ["--verbose", "--foo=bar"])]
    [("custom_flags", SVal.list ["--verbose", "--foo=bar"])]
    [("custom_flags", SVal.list ["--verbose", "--foo=bar"])]
    ["--verbose", "--foo=bar"] ["--verbose", "--foo=bar"] ["--verbose", "--foo=bar"]
    (by rfl) (by rfl) (by rfl)

/-- C9: each build function depends only on the lookups of its own
runner's handled keys, so two settings objects that differ only outside
that set (extra top-level sections or unknown keys inside the section)
produce identical argv; the builders are total functions, so extra keys
can never make them fail. -/
theorem builders_ignore_unknown_keys (s1 s2 : Option SettingsD) :
    ((∀ k ∈ ["model", "permission_mode", "tools", "allowed_tools",
             "disallowed_tools", "custom_flags"],
        cfgLookup s1 "claude" k = cfgLookup s2 "claude" k) →
      build_claude_command s1 = build_claude_command s2) ∧
    ((∀ k ∈ ["model", "sandbox", "reasoning_effort", "custom_flags"],
        cfgLookup s1 "codex" k = cfgLookup s2 "codex" k) →
      build_codex_command s1 = build_codex_command s2) ∧
    ((∀ k ∈ ["model", "sandbox", "yolo", "approval_mode", "custom_flags"],
        cfgLookup s1 "gemini" k = cfgLookup s2 "gemini" k) →
      build_gemini_command s1 = build_gemini_command s2) := by
  refine ⟨fun h => ?_, fun h => ?_, fun h => ?_⟩
  · rw [build_claude_eq s1, build_claude_eq s2,
      h "model" (by simp), h "permission_mode" (by simp), h "tools" (by simp),
      h "allowed_tools" (by simp), h "disallowed_tools" (by simp),
      h "custom_flags" (by simp)]
  · rw [build_codex_eq s1, build_codex_eq s2,
      h "model" (by simp), h "sandbox" (by simp),
      h "reasoning_effort" (by simp), h "custom_flags" (by simp)]
  · rw [build_gemini_eq s1, build_gemini_eq s2,
      h "model" (by simp), h "sandbox" (by simp), h "yolo" (by simp),
      h "approval_mode" (by simp), h "custom_flags" (by simp)]

/-- C9 witness: adding an unknown key inside the claude section, a stray
top-level section, codex and gemini noise keys — the argv of every builder
is unchanged. -/
theorem builders_ignore_unknown_keys_witness :
    build_claude_command
        (some [("claude", [("model", SVal.str "opus")])]) =
      build_claude_command
        (some [("claude", [("model", SVal.str "opus"), ("mystery", SVal.str "x")]),
               ("unknown_section", [("whatever", SVal.bool true)])]) ∧
    build_codex_command
        (some [("claude", [("model", SVal.str "opus")])]) =
      build_codex_command
        (some [("claude", [("model", SVal.str "opus"), ("mystery", SVal.str "x")]),
               ("unknown_section", [("whatever", SVal.bool true)])]) ∧
    build_gemini_command
        (some [("claude", [("model", SVal.str "opus")])]) =
      build_gemini_command
        (some [("claude", [("model", SVal.str "opus"), ("mystery", SVal.str "x")]),
               ("unknown_section", [("whatever", SVal.bool true)])]) := by
  have h := builders_ignore_unknown_keys
    (some [("claude", [("model", SVal.str "opus")])])
    (some [("claude", [("model", SVal.str "opus"), ("mystery", SVal.str "x")]),
           ("unknown_section", [("whatever", SVal.bool true)])])
  exact ⟨h.1 (by decide), h.2.1 (by decide), h.2.2 (by decide)⟩

/-- C10: any custom_flags list accepted by `validate_custom_flags` has at
most 10 elements, and each element starts with a dash, is at most 100
characters long, contains no shell metacharacter, contains no
dangerous-flag substring (the check is on the lower-cased flag, so the
original flag a fortiori contains none), and its flag name is outside the
runner's reserved list; contrapositively, violating any of these makes the
validator reject (raise `ValidationError`). -/
theorem validate_custom_flags_sound (flags : List PyStr) (ai : String)
    (h : validate_custom_flags flags ai = true) :
    flags.length ≤ 10 ∧
    ∀ f ∈ flags,
      f.head? = some '-' ∧
      f.length ≤ 100 ∧
      (∀ c ∈ SHELL_META_CHARS, c ∉ f) ∧
      (∀ d ∈ DANGEROUS_FLAGS, ¬ d <:+: f) ∧
      flag_name f ∉ RESERVED_FLAGS ai := by
  unfold validate_custom_flags at h
  by_cases hlen : flags.length > 10
  · simp [hlen] at h
  · refine ⟨by omega, ?_⟩
    rw [if_neg hlen, List.all_eq_true] at h
    intro f hf
    have hflag := h f hf
    simp only [Bool.and_eq_true, decide_eq_true_eq] at hflag
    obtain ⟨⟨⟨⟨hdash, hlen100⟩, hres⟩, hdang⟩, hmeta⟩ := hflag
    refine ⟨hdash, hlen100, hmeta, ?_, hres⟩
    intro d hd hinf
    exact hdang d hd (by
      have := map_infix_mono Char.toLower hinf
      rwa [dangerous_flags_lowercase d hd] at this)

/-- C10 witness: a concrete accepted list, for which all the claimed
conditions hold. -/
theorem validate_custom_flags_sound_witness :
    validate_custom_flags ["-v".toList, "--foo=bar".toList] "claude" = true ∧
    (["-v".toList, "--foo=bar".toList].length ≤ 10 ∧
     ∀ f ∈ ["-v".toList, "--foo=bar".toList],
       f.head? = some '-' ∧
       f.length ≤ 100 ∧
       (∀ c ∈ SHELL_META_CHARS, c ∉ f) ∧
       (∀ d ∈ DANGEROUS_FLAGS, ¬ d <:+: f) ∧
       flag_name f ∉ RESERVED_FLAGS "claude") :=
  ⟨by decide, validate_custom_flags_sound ["-v".toList, "--foo=bar".toList] "claude" (by decide)⟩


/-! Embedding of the `create_job` endpoint of `src/main.py` together with
`ensure_room_owned` and `_get_or_create_default_thread`.  The SQLite rows
are embedded as lists of records; `utcnow` is passed in as an explicit
`now` parameter; the uuid identifiers allocated by the (absent) `models`
module are modelled by a counter in the state.  `Job` allocation itself
lives in `job_manager.py`, which is not among the sources; it is modelled
from the spec, see `job_manager_create`. -/

/-- A row of the `threads` table, with the fields `main.py` uses.  The
`unread_runners` JSON column is embedded as the list it encodes. -/
structure ThreadR where
  id : String
  room_id : String
  name : String
  device_id : String
  has_unread : Bool
  unread_runners : List String
  created_at : Nat
deriving DecidableEq, Repr

/-- A row of the `rooms` table, with the fields `create_job` uses.  The
`settings` JSON column is embedded as the settings dict it encodes (or
`none`, covering both NULL and unparseable JSON, which `create_job` treats
alike). -/
structure RoomR where
  id : String
  device_id : String
  workspace_path : String
  room_settings : Option SettingsD
deriving DecidableEq, Repr

/-- A Job record, with the fields the claims observe. -/
structure JobR where
  id : String
  runner : String
  status : String
  device_id : String
  room_id : String
  thread_id : Option String
  input_text : String
deriving DecidableEq, Repr

/-- The persistent state `create_job` reads and writes. -/
structure ServerState where
  rooms : List RoomR
  threads : List ThreadR
  jobs : List JobR
  nextId : Nat
deriving DecidableEq, Repr

/-- The request body `CreateJobRequest` of `main.py`. -/
structure CreateJobRequest where
  runner : String
  input_text : String
  device_id : String
  room_id : Option String
  notify_token : Option String
  thread_id : Option String
deriving DecidableEq, Repr

/-- An `HTTPException`: status code and detail. -/
structure HErr where
  status_code : Nat
  detail : String
deriving DecidableEq, Repr

/-- The `JobSummary` response model. -/
structure JobSummary where
  id : String
  runner : String
  status : String
deriving DecidableEq, Repr

/-- `main.py`: `ALLOWED_RUNNERS = {"claude", "codex", "gemini"}`. -/
def ALLOWED_RUNNERS : List String := ["claude", "codex", "gemini"]

/-- Embedding of `ensure_room_owned`: 404 when the room id is unknown,
403 when the room belongs to another device. -/
def ensure_room_owned (room_id device_id : String) (st : ServerState) :
    Except HErr RoomR :=
  match st.rooms.find? (fun r => r.id == room_id) with
  | none => .error ⟨404, "Room not found"⟩
  | some room =>
    if room.device_id ≠ device_id then .error ⟨403, "Room not owned by device"⟩
    else .ok room

/-- The query `ORDER BY created_at ASC ... first()`: the earliest-created
element, earliest list position winning ties. -/
def oldestThread : List ThreadR → Option ThreadR
  | [] => none
  | t :: ts =>
    match oldestThread ts with
    | none => some t
    | some u => if u.created_at < t.created_at then some u else some t

/-- Embedding of `_get_or_create_default_thread`: the room's oldest thread
if it has one, otherwise a freshly inserted default thread. -/
def get_or_create_default_thread (st : ServerState) (room : RoomR)
    (runner : String) (now : Nat) : ThreadR × ServerState :=
  match oldestThread (st.threads.filter (fun t => t.room_id == room.id)) with
  | some t => (t, st)
  | none =>
    let t : ThreadR :=
      { id := "thread-" ++ toString st.nextId, room_id := room.id,
        name := runner.capitalize ++ " 会話", device_id := room.device_id,
        has_unread := false, unread_runners := [], created_at := now }
    (t, { st with threads := st.threads ++ [t], nextId := st.nextId + 1 })

/-- The v4.3.2 block of `create_job`: sending a job clears the sending
runner from the thread's unread list. -/
def clear_unread (st : ServerState) (runner : String) (thread : ThreadR) :
    ServerState :=
  if runner ∈ thread.unread_runners then
    { st with threads := st.threads.map (fun t =>
        if t.id == thread.id then
          { t with unread_runners := t.unread_runners.erase runner,
                   has_unread := !(t.unread_runners.erase runner).isEmpty }
        else t) }
  else st

/-- Modelled from the spec: `job_manager.py` is not among the sources.
Spec 4.3 `create`: reject an unknown runner with an error, otherwise
allocate a Job record in `pending` state with a fresh identifier and make
it immediately visible to readers; the subprocess execution is a separate
asynchronous task and does not affect creation. -/
def job_manager_create (st : ServerState) (req : CreateJobRequest)
    (room : RoomR) (thread : ThreadR) : Except String (ServerState × JobR) :=
  if req.runner ∉ ALLOWED_RUNNERS then .error ("Unsupported runner: " ++ req.runner)
  else
    let job : JobR :=
      { id := "job-" ++ toString st.nextId, runner := req.runner,
        status := "pending", device_id := req.device_id, room_id := room.id,
        thread_id := some thread.id, input_text := req.input_text }
    .ok ({ st with jobs := st.jobs ++ [job], nextId := st.nextId + 1 }, job)

/-- The tail of the `create_job` endpoint after thread resolution: unread
clearing, then the Job Manager's create (a `ValueError` there surfaces as
a 400). -/
def finish_create (st : ServerState) (req : CreateJobRequest) (room : RoomR)
    (thread : ThreadR) : ServerState × Except HErr JobSummary :=
  let st1 := clear_unread st req.runner thread
  match job_manager_create st1 req room thread with
  | .error msg => (st1, .error ⟨400, msg⟩)
  | .ok (st2, job) => (st2, .ok ⟨job.id, job.runner, job.status⟩)

/-- Embedding of the `create_job` endpoint (`src/main.py`): runner
whitelist check, required `room_id`, room ownership, thread resolution
(explicit `thread_id`, or the compat-mode default thread), then the Job
Manager's create.  `compatMode` is `settings.threads_compat_mode`. -/
def create_job (st : ServerState) (compatMode : Bool) (now : Nat)
    (req : CreateJobRequest) : ServerState × Except HErr JobSummary :=
  if req.runner ∉ ALLOWED_RUNNERS then (st, .error ⟨400, "Unsupported runner"⟩)
  else if req.room_id = none ∨ req.room_id = some "" then
    (st, .error ⟨400, "room_id is required"⟩)
  else
    match ensure_room_owned (req.room_id.getD "") req.device_id st with
    | .error e => (st, .error e)
    | .ok room =>
      match req.thread_id with
      | some tid =>
        match st.threads.find? (fun t => t.id == tid) with
        | none => (st, .error ⟨404, "Thread not found"⟩)
        | some thread =>
          if thread.room_id ≠ room.id then
            (st, .error ⟨400, "Thread does not belong to room"⟩)
          else finish_create st req room thread
      | none =>
        if ¬ compatMode then
          (st, .error ⟨400, "thread_id is required when THREADS_COMPAT_MODE=false"⟩)
        else
          let p := get_or_create_default_thread st room req.runner now
          finish_create p.2 req room p.1

/-- The `get_job` read path: `job_manager.get_job` looked up by id
(modelled from the spec over the same job table `create_job` writes). -/
def get_job (st : ServerState) (job_id : String) : Option JobR :=
  st.jobs.find? (fun j => j.id == job_id)

/-- The `list_jobs` read path: conjunctive optional filters, most recently
created first, at most `limit` entries (modelled from the spec over the
same job table `create_job` writes). -/
def list_jobs (st : ServerState) (limit : Nat)
    (status device_id : Option String) : List JobR :=
  ((st.jobs.filter (fun j =>
      (match status with | some s => j.status == s | none => true) &&
      (match device_id with | some d => j.device_id == d | none => true))).reverse).take limit


theorem oldestThread_eq_none {l : List ThreadR} (h : oldestThread l = none) : l = [] := by
  cases l with
  | nil => rfl
  | cons t ts =>
    simp only [oldestThread] at h
    cases hol : oldestThread ts with
    | none => simp only [hol] at h; exact Option.noConfusion h
    | some u => simp only [hol] at h; split at h <;> simp_all

theorem oldestThread_spec : ∀ (l : List ThreadR) (t : ThreadR), oldestThread l = some t →
    t ∈ l ∧ ∀ u ∈ l, t.created_at ≤ u.created_at := by
  intro l
  induction l with
  | nil => intro t h; simp [oldestThread] at h
  | cons a l ih =>
    intro t h
    simp only [oldestThread] at h
    cases hol : oldestThread l with
    | none =>
      simp only [hol] at h
      injection h with h
      subst h
      have hl := oldestThread_eq_none hol
      subst hl
      exact ⟨by simp, by intro u hu; simp at hu; subst hu; exact le_refl _⟩
    | some u =>
      simp only [hol] at h
      obtain ⟨humem, humin⟩ := ih u hol
      by_cases hc : u.created_at < a.created_at
      · rw [if_pos hc] at h
        injection h with h
        subst h
        refine ⟨List.mem_cons_of_mem _ humem, ?_⟩
        intro v hv
        rcases List.mem_cons.mp hv with hv | hv
        · rw [hv]; exact le_of_lt hc
        · exact humin v hv
      · rw [if_neg hc] at h
        injection h with h
        subst h
        refine ⟨List.mem_cons_self _ _, ?_⟩
        intro v hv
        rcases List.mem_cons.mp hv with hv | hv
        · rw [hv]
        · exact le_trans (not_lt.mp hc) (humin v hv)

theorem clear_unread_jobs (st : ServerState) (r : String) (th : ThreadR) :
    (clear_unread st r th).jobs = st.jobs := by
  unfold clear_unread
  split <;> rfl

theorem clear_unread_nextId (st : ServerState) (r : String) (th : ThreadR) :
    (clear_unread st r th).nextId = st.nextId := by
  unfold clear_unread
  split <;> rfl

/-- C1: a `create_job` request whose runner is outside the supported set
fails synchronously with the 400 validation error `Unsupported runner`,
the state is untouched (the rejection happens before any job state is
allocated), and no later `get_job` or `list_jobs` can observe a job from
the request. -/
theorem create_job_rejects_unknown_runner (st : ServerState) (compat : Bool) (now : Nat)
    (req : CreateJobRequest) (h : req.runner ∉ ALLOWED_RUNNERS) :
    create_job st compat now req = (st, Except.error ⟨400, "Unsupported runner"⟩) ∧
    (create_job st compat now req).1.jobs = st.jobs ∧
    (∀ jid, get_job (create_job st compat now req).1 jid = get_job st jid) ∧
    ∀ lim stf dev, list_jobs (create_job st compat now req).1 lim stf dev =
      list_jobs st lim stf dev := by
  have he : create_job st compat now req = (st, Except.error ⟨400, "Unsupported runner"⟩) := by
    simp [create_job, h]
  exact ⟨he, by rw [he], fun jid => by rw [he], fun lim stf dev => by rw [he]⟩

/-- C1 witness: a concrete request with runner `cursor` against the empty
state is rejected with the validation error and leaves the state as is. -/
theorem create_job_rejects_unknown_runner_witness :
    "cursor" ∉ ALLOWED_RUNNERS ∧
    create_job ⟨[], [], [], 0⟩ true 0 ⟨"cursor", "hi", "d1", some "r1", none, none⟩ =
      (⟨[], [], [], 0⟩, Except.error ⟨400, "Unsupported runner"⟩) :=
  ⟨by decide,
   (create_job_rejects_unknown_runner ⟨[], [], [], 0⟩ true 0
      ⟨"cursor", "hi", "d1", some "r1", none, none⟩ (by decide)).1⟩


/-- C7: a `create_job` request that omits `thread_id` is rejected with a
validation error — state untouched, no job created — when compat mode is
off (specifically 400 `thread_id is required when THREADS_COMPAT_MODE=false`
once the earlier checks pass), and when compat mode is on the job is
resolved to the room's default thread: the room's oldest existing thread,
or a newly inserted one when the room has none. -/
theorem create_job_default_thread (st : ServerState) (now : Nat) (req : CreateJobRequest)
    (hthread : req.thread_id = none) :
    ((create_job st false now req).1 = st ∧
      ∃ e, (create_job st false now req).2 = Except.error e) ∧
    (∀ room, req.runner ∈ ALLOWED_RUNNERS →
      ¬ (req.room_id = none ∨ req.room_id = some "") →
      ensure_room_owned (req.room_id.getD "") req.device_id st = Except.ok room →
      (create_job st false now req).2 =
        Except.error ⟨400, "thread_id is required when THREADS_COMPAT_MODE=false"⟩) ∧
    (∀ room, req.runner ∈ ALLOWED_RUNNERS →
      ¬ (req.room_id = none ∨ req.room_id = some "") →
      ensure_room_owned (req.room_id.getD "") req.device_id st = Except.ok room →
      match oldestThread (st.threads.filter (fun t => t.room_id == room.id)) with
      | some t =>
        t ∈ st.threads ∧ t.room_id = room.id ∧
        (∀ u ∈ st.threads, u.room_id = room.id → t.created_at ≤ u.created_at) ∧
        ∃ j, (create_job st true now req).1.jobs = st.jobs ++ [j] ∧
          j.thread_id = some t.id ∧ j.status = "pending" ∧ j.runner = req.runner ∧
          (create_job st true now req).2 = Except.ok ⟨j.id, j.runner, j.status⟩
      | none =>
        ∃ tnew, (create_job st true now req).1.threads = st.threads ++ [tnew] ∧
          tnew.room_id = room.id ∧
          ∃ j, (create_job st true now req).1.jobs = st.jobs ++ [j] ∧
            j.thread_id = some tnew.id ∧ j.status = "pending" ∧ j.runner = req.runner ∧
            (create_job st true now req).2 = Except.ok ⟨j.id, j.runner, j.status⟩) := by
  refine ⟨?_, ?_, ?_⟩
  · by_cases h1 : req.runner ∈ ALLOWED_RUNNERS
    · by_cases h2 : req.room_id = none ∨ req.room_id = some ""
      · constructor <;> simp [create_job, h1, h2]
      · cases hro : ensure_room_owned (req.room_id.getD "") req.device_id st with
        | error e => constructor <;> simp [create_job, h1, h2, hro]
        | ok room => constructor <;> simp [create_job, h1, h2, hro, hthread]
    · constructor <;> simp [create_job, h1]
  · intro room h1 h2 hro
    simp [create_job, h1, h2, hro, hthread]
  · intro room h1 h2 hro
    cases hot : oldestThread (st.threads.filter (fun t => t.room_id == room.id)) with
    | some t =>
      obtain ⟨hmemf, hminf⟩ := oldestThread_spec _ t hot
      have hmem : t ∈ st.threads := (List.mem_filter.mp hmemf).1
      have hrm : t.room_id = room.id := by
        have h3 := (List.mem_filter.mp hmemf).2
        simpa using h3
      refine ⟨hmem, hrm, ?_, ?_⟩
      · intro u hu hur
        exact hminf u (List.mem_filter.mpr ⟨hu, by simp [hur]⟩)
      · refine ⟨{ id := "job-" ++ toString (clear_unread st req.runner t).nextId,
                  runner := req.runner, status := "pending", device_id := req.device_id,
                  room_id := room.id, thread_id := some t.id,
                  input_text := req.input_text }, ?_, rfl, rfl, rfl, ?_⟩
        · simp [create_job, h1, h2, hro, hthread, get_or_create_default_thread, hot,
            finish_create, job_manager_create, clear_unread_jobs, clear_unread_nextId]
        · simp [create_job, h1, h2, hro, hthread, get_or_create_default_thread, hot,
            finish_create, job_manager_create, clear_unread_nextId]
    | none =>
      refine ⟨{ id := "thread-" ++ toString st.nextId, room_id := room.id,
                name := req.runner.capitalize ++ " 会話", device_id := room.device_id,
                has_unread := false, unread_runners := [], created_at := now }, ?_, rfl, ?_⟩
      · simp [create_job, h1, h2, hro, hthread, get_or_create_default_thread, hot,
          finish_create, job_manager_create, clear_unread]
      · refine ⟨{ id := "job-" ++ toString (st.nextId + 1),
                  runner := req.runner, status := "pending", device_id := req.device_id,
                  room_id := room.id,
                  thread_id := some ("thread-" ++ toString st.nextId),
                  input_text := req.input_text }, ?_, rfl, rfl, rfl, ?_⟩
        · simp [create_job, h1, h2, hro, hthread, get_or_create_default_thread, hot,
            finish_create, job_manager_create, clear_unread]
        · simp [create_job, h1, h2, hro, hthread, get_or_create_default_thread, hot,
            finish_create, job_manager_create, clear_unread]


/-- C7 witness: in a concrete state with one room `r1` owned by `d1` and
two threads created at times 5 and 3, a request without `thread_id` is
rejected when compat mode is off, and resolved to the oldest thread
(created at 3) when compat mode is on. -/
theorem create_job_default_thread_witness :
    ((create_job ⟨[⟨"r1", "d1", "/ws", none⟩],
        [⟨"t5", "r1", "n5", "d1", false, [], 5⟩, ⟨"t3", "r1", "n3", "d1", false, [], 3⟩],
        [], 7⟩ false 9 ⟨"claude", "hello", "d1", some "r1", none, none⟩).1 =
      ⟨[⟨"r1", "d1", "/ws", none⟩],
        [⟨"t5", "r1", "n5", "d1", false, [], 5⟩, ⟨"t3", "r1", "n3", "d1", false, [], 3⟩],
        [], 7⟩ ∧
      ∃ e, (create_job ⟨[⟨"r1", "d1", "/ws", none⟩],
        [⟨"t5", "r1", "n5", "d1", false, [], 5⟩, ⟨"t3", "r1", "n3", "d1", false, [], 3⟩],
        [], 7⟩ false 9 ⟨"claude", "hello", "d1", some "r1", none, none⟩).2 =
          Except.error e) ∧
    ((⟨"t3", "r1", "n3", "d1", false, [], 3⟩ : ThreadR) ∈
        ([⟨"t5", "r1", "n5", "d1", false, [], 5⟩,
          ⟨"t3", "r1", "n3", "d1", false, [], 3⟩] : List ThreadR) ∧
      (⟨"t3", "r1", "n3", "d1", false, [], 3⟩ : ThreadR).room_id =
        (⟨"r1", "d1", "/ws", none⟩ : RoomR).id ∧
      (∀ u ∈ ([⟨"t5", "r1", "n5", "d1", false, [], 5⟩,
               ⟨"t3", "r1", "n3", "d1", false, [], 3⟩] : List ThreadR),
        u.room_id = (⟨"r1", "d1", "/ws", none⟩ : RoomR).id →
        (⟨"t3", "r1", "n3", "d1", false, [], 3⟩ : ThreadR).created_at ≤ u.created_at) ∧
      ∃ j, (create_job ⟨[⟨"r1", "d1", "/ws", none⟩],
          [⟨"t5", "r1", "n5", "d1", false, [], 5⟩, ⟨"t3", "r1", "n3", "d1", false, [], 3⟩],
          [], 7⟩ true 9 ⟨"claude", "hello", "d1", some "r1", none, none⟩).1.jobs =
        [] ++ [j] ∧
        j.thread_id = some (⟨"t3", "r1", "n3", "d1", false, [], 3⟩ : ThreadR).id ∧
        j.status = "pending" ∧
        j.runner = ("claude" : String) ∧
        (create_job ⟨[⟨"r1", "d1", "/ws", none⟩],
          [⟨"t5", "r1", "n5", "d1", false, [], 5⟩, ⟨"t3", "r1", "n3", "d1", false, [], 3⟩],
          [], 7⟩ true 9 ⟨"claude", "hello", "d1", some "r1", none, none⟩).2 =
          Except.ok ⟨j.id, j.runner, j.status⟩) :=
  ⟨(create_job_default_thread ⟨[⟨"r1", "d1", "/ws", none⟩],
      [⟨"t5", "r1", "n5", "d1", false, [], 5⟩, ⟨"t3", "r1", "n3", "d1", false, [], 3⟩],
      [], 7⟩ 9 ⟨"claude", "hello", "d1", some "r1", none, none⟩ rfl).1,
   (create_job_default_thread ⟨[⟨"r1", "d1", "/ws", none⟩],
      [⟨"t5", "r1", "n5", "d1", false, [], 5⟩, ⟨"t3", "r1", "n3", "d1", false, [], 3⟩],
      [], 7⟩ 9 ⟨"claude", "hello", "d1", some "r1", none, none⟩ rfl).2.2
    ⟨"r1", "d1", "/ws", none⟩ (by decide) (by decide) rfl⟩


/-! The Session Store.  The schema is the rebuilt `device_sessions` table
of `database.py` `_ensure_thread_columns`: columns (device_id, room_id,
runner, thread_id nullable, session_id, created_at, updated_at).  The
upsert operation itself lives in `session_manager.py`, which is not among
the sources; it is modelled from the spec. -/

/-- The composite session key (`device_id`, `room_id`, `runner`,
`thread_id`); `thread_id` is nullable, embedded as `Option`. -/
structure SessionKey where
  device_id : String
  room_id : String
  runner : String
  thread_id : Option String
deriving DecidableEq, Repr

/-- A row of `device_sessions`. -/
structure SessionRow where
  key : SessionKey
  session_id : String
  created_at : Nat
  updated_at : Nat
deriving DecidableEq, Repr

/-- Modelled from the spec: `session_manager.py` is not among the sources.
Spec 3 / 4.2: `upsert(key, token)` with upsert semantics over the unique
composite key — if a row for the key exists its token and `updated_at` are
overwritten, otherwise a single new row is inserted.  An absent
`thread_id` is the `none` key component, matched exactly (SQL `IS NULL`
application-side lookup). -/
def session_upsert (store : List SessionRow) (k : SessionKey) (tok : String)
    (now : Nat) : List SessionRow :=
  if store.any (fun r => r.key == k) then
    store.map (fun r =>
      if r.key == k then { r with session_id := tok, updated_at := now } else r)
  else store ++ [⟨k, tok, now, now⟩]

/-- The rows of the store holding a given composite key. -/
def rowsFor (store : List SessionRow) (k : SessionKey) : List SessionRow :=
  store.filter (fun r => r.key == k)

end RemotePrompt

namespace RemotePrompt

theorem length_filter_key_map (store : List SessionRow) (f : SessionRow → SessionRow)
    (hf : ∀ r, (f r).key = r.key) (k : SessionKey) :
    ((store.map f).filter (fun r => r.key == k)).length =
      (store.filter (fun r => r.key == k)).length := by
  induction store with
  | nil => rfl
  | cons a l ih =>
    by_cases hk : a.key == k
    · simp [List.filter_cons, hf, hk, ih]
    · simp [List.filter_cons, hf, hk, ih]

theorem rowsFor_upsert_le (store : List SessionRow) (k' : SessionKey) (tok : String)
    (now : Nat) (k : SessionKey) (h : (rowsFor store k).length ≤ 1) :
    (rowsFor (session_upsert store k' tok now) k).length ≤ 1 := by
  unfold session_upsert
  by_cases hany : store.any (fun r => r.key == k')
  · rw [if_pos hany]
    unfold rowsFor at h ⊢
    rw [length_filter_key_map store _ (fun r => by split <;> rfl) k]
    exact h
  · rw [if_neg hany]
    unfold rowsFor at h ⊢
    rw [List.filter_append, List.length_append]
    by_cases hkk : k = k'
    · subst hkk
      have hnil : store.filter (fun r => r.key == k) = [] := by
        rw [List.filter_eq_nil_iff]
        intro r hr
        intro hcontra
        exact hany (List.any_eq_true.mpr ⟨r, hr, hcontra⟩)
      simp [hnil]
    · have : (([⟨k', tok, now, now⟩] : List SessionRow).filter
          (fun r => r.key == k)).length = 0 := by
        simp [List.filter_cons]
        intro hcontra
        exact absurd hcontra.symm hkk
      omega

theorem foldl_upsert_inv (ops : List (SessionKey × String × Nat)) :
    ∀ store, (∀ k, (rowsFor store k).length ≤ 1) →
      ∀ k, (rowsFor (ops.foldl (fun st op => session_upsert st op.1 op.2.1 op.2.2) store) k).length ≤ 1 := by
  induction ops with
  | nil => intro store h k; exact h k
  | cons op ops ih =>
    intro store h k
    simp only [List.foldl_cons]
    exact ih _ (fun k2 => rowsFor_upsert_le _ _ _ _ _ (h k2)) k

/-- C2: starting from an empty Session Store, after any sequence of
completions (upserts, with arbitrary keys, tokens and times) the store
holds at most one row per composite (device_id, room_id, runner,
thread_id) key — including keys whose `thread_id` is absent (`none`):
upsert never duplicates a key. -/
theorem session_upsert_at_most_one_row (ops : List (SessionKey × String × Nat))
    (k : SessionKey) :
    (rowsFor (ops.foldl (fun st op => session_upsert st op.1 op.2.1 op.2.2) []) k).length ≤ 1 :=
  foldl_upsert_inv ops [] (fun _ => by simp [rowsFor]) k

/-! The `/events` global SSE stream loop of `src/main.py`
(`global_events_stream`).  The loop body awaits the subscriber queue with
`asyncio.wait_for(queue.get(), timeout=30.0)`; the environment is embedded
as the sequence of wait outcomes the loop observes while the client stays
connected, each carrying the logical time the wait took: an event payload
delivered after `d ≤ 30` time units, a `None` close sentinel, or a
timeout after exactly 30 units, which produces the `:ping` heartbeat
frame.  Frames are paired with their emission times. -/

/-- A frame sent to a global subscriber: a named event with its JSON data,
or the `:ping` heartbeat comment frame. -/
inductive GFrame where
  | event (name : String) (data : String)
  | heartbeat
deriving DecidableEq, Repr

/-- The payload a frame carries; the heartbeat frame carries none. -/
def GFrame.payload : GFrame → Option (String × String)
  | .event n d => some (n, d)
  | .heartbeat => none

/-- One observed outcome of `asyncio.wait_for(queue.get(), timeout=30.0)`:
either the queue delivered `p` after `d` time units, or the 30-unit
timeout elapsed. -/
inductive WaitOutcome where
  | got (d : Nat) (p : Option (String × String))
  | timedOut
deriving DecidableEq, Repr

/-- The `timeout=30.0` of the SSE loop (spec: default heartbeat interval
of 30 time units). -/
def heartbeat_timeout : Nat := 30

/-- Embedding of the `/events` `event_generator` loop: at time `t`, each
deliverable payload yields an event frame at its delivery time, a `None`
sentinel ends the stream, and a timeout yields a heartbeat frame at
`t + 30`; disconnection (end of the outcome list) ends the stream. -/
def global_events_stream (t : Nat) : List WaitOutcome → List (Nat × GFrame)
  | [] => []
  | WaitOutcome.timedOut :: rest =>
    (t + heartbeat_timeout, GFrame.heartbeat) ::
      global_events_stream (t + heartbeat_timeout) rest
  | WaitOutcome.got _ none :: _ => []
  | WaitOutcome.got d (some (n, dat)) :: rest =>
    (t + d, GFrame.event n dat) :: global_events_stream (t + d) rest

/-- Every consecutive pair of emitted frames (and the first frame relative
to the subscription time) is at most `heartbeat_timeout` apart. -/
def gapsBounded : Nat → List (Nat × GFrame) → Bool
  | _, [] => true
  | t, (t1, _) :: rest => decide (t1 ≤ t + heartbeat_timeout) && gapsBounded t1 rest

end RemotePrompt

namespace RemotePrompt

theorem gapsBounded_stream (trace : List WaitOutcome) :
    ∀ t0, (∀ d p, WaitOutcome.got d p ∈ trace → d ≤ heartbeat_timeout) →
      gapsBounded t0 (global_events_stream t0 trace) = true := by
  induction trace with
  | nil => intro t0 _; rfl
  | cons w ws ih =>
    intro t0 h
    cases w with
    | timedOut =>
      simp only [global_events_stream, gapsBounded, Bool.and_eq_true, decide_eq_true_eq]
      exact ⟨le_refl _, ih (t0 + heartbeat_timeout)
        (fun d p hm => h d p (List.mem_cons_of_mem _ hm))⟩
    | got d p =>
      cases p with
      | none => simp [global_events_stream, gapsBounded]
      | some e =>
        obtain ⟨n, dat⟩ := e
        simp only [global_events_stream, gapsBounded, Bool.and_eq_true, decide_eq_true_eq]
        refine ⟨?_, ih (t0 + d) (fun d2 p2 hm => h d2 p2 (List.mem_cons_of_mem _ hm))⟩
        have hd : d ≤ heartbeat_timeout := h d (some (n, dat)) (List.mem_cons_self _ _)
        omega

/-- C8: over any connected run of the global `/events` loop in which each
queue wait delivers within the 30-unit timeout or times out, (1) every
iteration that sees no event for 30 time units emits a heartbeat frame,
(2) a heartbeat frame carries no event payload, and (3) the gap between
consecutive frames a connected subscriber receives (and from subscription
to the first frame) never exceeds the 30-unit interval. -/
theorem global_events_heartbeat (t0 : Nat) (trace : List WaitOutcome)
    (hwf : ∀ d p, WaitOutcome.got d p ∈ trace → d ≤ heartbeat_timeout) :
    global_events_stream t0 (WaitOutcome.timedOut :: trace) =
      (t0 + heartbeat_timeout, GFrame.heartbeat) ::
        global_events_stream (t0 + heartbeat_timeout) trace ∧
    (∀ x ∈ global_events_stream t0 trace, x.2 = GFrame.heartbeat →
      x.2.payload = none) ∧
    gapsBounded t0 (global_events_stream t0 trace) = true := by
  refine ⟨rfl, ?_, gapsBounded_stream trace t0 hwf⟩
  intro x _ hx
  rw [hx]
  rfl

/-- C8 witness: a concrete run — a 30-unit silence, an event after 5
units, another silence — has frames at times 30, 35, 65: heartbeat, event,
heartbeat, all gaps within the interval. -/
theorem global_events_heartbeat_witness :
    global_events_stream 0 [WaitOutcome.timedOut,
        WaitOutcome.got 5 (some ("certificate_changed", "x")), WaitOutcome.timedOut] =
      [(30, GFrame.heartbeat), (35, GFrame.event "certificate_changed" "x"),
       (65, GFrame.heartbeat)] ∧
    gapsBounded 0 (global_events_stream 0 [WaitOutcome.timedOut,
        WaitOutcome.got 5 (some ("certificate_changed", "x")), WaitOutcome.timedOut]) = true :=
  ⟨by rfl,
   (global_events_heartbeat 0 [WaitOutcome.timedOut,
      WaitOutcome.got 5 (some ("certificate_changed", "x")), WaitOutcome.timedOut]
      (by
        intro d p hm
        simp only [List.mem_cons, List.not_mem_nil, or_false] at hm
        rcases hm with h | h | h
        · exact WaitOutcome.noConfusion h
        · injection h with h1 h2
          subst h1
          decide
        · exact WaitOutcome.noConfusion h)).2.2⟩

end RemotePrompt
